import Mathlib

/-!
Verification of `uav_failure_detection_exercise.py` (Therkelsen/introduction_to_drone_technology).

The script loads a ULog flight log, normalizes three record kinds into dicts,
sorts them by the first dict value (the timestamp), and replays them through a
stateful algorithm (`algorithm_init` / `algorithm_update` / `algorithm_done`)
that filters to a time window and accumulates pressure and kill-switch
histories in four module-level lists.

Embedding choices:
* Python floats are modelled as rationals (`ℚ`); every arithmetic operation the
  script performs on them (division by 1e6, order comparison) is exact.
* A Python dict is an insertion-ordered association list `List (String × Val)`;
  subscripting a missing key (Python `KeyError`) is modelled by `Except`.
* The module-level lists `pressure_time`, `pressure_log`, `kill_sw_time`,
  `kill_sw_log` become the fields of `AlgState`; `print` calls become `Output`
  values.
-/

namespace UAVExercise

/-- A value stored in a record dict: a floating-point number (modelled as a
rational) or a string tag. -/
inductive Val where
  | num (q : ℚ)
  | str (s : String)
deriving DecidableEq

/-- A normalized data record: a Python dict modelled as an insertion-ordered
association list from field names to values. -/
abbrev Record := List (String × Val)

/-- Dict lookup `x[k]` returning the stored value when the key is present. -/
def dictGet (r : Record) (k : String) : Option Val :=
  (r.find? (fun kv => kv.1 == k)).map (fun kv => kv.2)

/-- The numeric content of a value in a context where the script uses it as a
number. Every value this program compares or stores numerically is built by
`load_data` as a `Val.num`, so the `Val.str` branch is never exercised there
(in Python it would be a `TypeError`). -/
def Val.toNum : Val → ℚ
  | .num q => q
  | .str _ => 0

/-- The failure raised when `algorithm_update` subscripts a dict key that is
absent (Python `KeyError` at the access site). It carries the offending key and
the whole event, which identifies the event's kind and timestamp. -/
structure MalformedEventError where
  missingKey : String
  event : Record
deriving DecidableEq

/-- One line of observable output (a `print` call or the final plot). -/
inductive Output where
  | initLine
  | imuLine (ts gx gy gz ax ay az : ℚ)
  | pressureLine (ts p : ℚ)
  | killSwLine (ts a : ℚ)
  | doneLine
  | plotCall (start_s end_s : ℚ)
      (pressure_time pressure_log kill_sw_time kill_sw_log : List ℚ)
deriving DecidableEq

/-- The module-level accumulator lists of the script (source lines 73-76). -/
structure AlgState where
  pressure_time : List ℚ
  pressure_log : List ℚ
  kill_sw_time : List ℚ
  kill_sw_log : List ℚ
deriving DecidableEq

/-- The module-level initialization: all four lists start empty. -/
def initState : AlgState := ⟨[], [], [], []⟩

/-- Source line 71: `start_seconds = 100`. -/
def start_seconds : ℚ := 100

/-- Source line 72: `end_seconds = 900`. -/
def end_seconds : ℚ := 900

/-- Function `algorithm_init` (source lines 78-79): prints a line, touches no state. -/
def algorithm_init : List Output := [Output.initLine]

/-- The `sensor_combined` branch of `algorithm_update` (source lines 86-87):
prints the six IMU values, accumulating nothing. Each subscript may raise. -/
def updateSensorCombined (new_data : Record) (fld : Val) (ts : ℚ)
    (acc : AlgState × List Output) :
    Except MalformedEventError (AlgState × List Output) :=
  if fld = Val.str "sensor_combined" then
    match dictGet new_data "gyro_rad_x" with
    | some (Val.num gx) =>
      match dictGet new_data "gyro_rad_y" with
      | some (Val.num gy) =>
        match dictGet new_data "gyro_rad_z" with
        | some (Val.num gz) =>
          match dictGet new_data "acc_x" with
          | some (Val.num ax) =>
            match dictGet new_data "acc_y" with
            | some (Val.num ay) =>
              match dictGet new_data "acc_z" with
              | some (Val.num az) =>
                Except.ok (acc.1, acc.2 ++ [Output.imuLine ts gx gy gz ax ay az])
              | _ => Except.error ⟨"acc_z", new_data⟩
            | _ => Except.error ⟨"acc_y", new_data⟩
          | _ => Except.error ⟨"acc_x", new_data⟩
        | _ => Except.error ⟨"gyro_rad_z", new_data⟩
      | _ => Except.error ⟨"gyro_rad_y", new_data⟩
    | _ => Except.error ⟨"gyro_rad_x", new_data⟩
  else
    Except.ok acc

/-- The `vehicle_air_data` branch of `algorithm_update` (source lines 90-93):
prints and appends `(timestamp, baro_pressure_pa)` to the pressure history. -/
def updatePressure (new_data : Record) (fld : Val) (ts : ℚ)
    (acc : AlgState × List Output) :
    Except MalformedEventError (AlgState × List Output) :=
  if fld = Val.str "vehicle_air_data" then
    match dictGet new_data "baro_pressure_pa" with
    | some (Val.num p) =>
      Except.ok ({ acc.1 with
                    pressure_time := acc.1.pressure_time ++ [ts],
                    pressure_log := acc.1.pressure_log ++ [p] },
                 acc.2 ++ [Output.pressureLine ts p])
    | _ => Except.error ⟨"baro_pressure_pa", new_data⟩
  else
    Except.ok acc

/-- The `manual_control_setpoint` branch of `algorithm_update` (source lines
96-99): prints and appends `(timestamp, aux1)` to the kill-switch history. -/
def updateKillSwitch (new_data : Record) (fld : Val) (ts : ℚ)
    (acc : AlgState × List Output) :
    Except MalformedEventError (AlgState × List Output) :=
  if fld = Val.str "manual_control_setpoint" then
    match dictGet new_data "aux1" with
    | some (Val.num a) =>
      Except.ok ({ acc.1 with
                    kill_sw_time := acc.1.kill_sw_time ++ [ts],
                    kill_sw_log := acc.1.kill_sw_log ++ [a] },
                 acc.2 ++ [Output.killSwLine ts a])
    | _ => Except.error ⟨"aux1", new_data⟩
  else
    Except.ok acc

/-- Function `algorithm_update` (source lines 81-99). The timestamp is subscripted
first (line 83); inside the strict window the field tag is compared against the
three record kinds in sequence, exactly as the three `if` statements do. A
missing key aborts with a `MalformedEventError`; a `Val.str` where the script
uses a number (never produced by `load_data`) likewise aborts, as the Python
comparison would. -/
def algorithm_update (start_s end_s : ℚ) (s : AlgState) (new_data : Record) :
    Except MalformedEventError (AlgState × List Output) :=
  match dictGet new_data "timestamp" with
  | some (Val.num ts) =>
    if start_s < ts ∧ ts < end_s then
      match dictGet new_data "field" with
      | some fld =>
        match updateSensorCombined new_data fld ts (s, []) with
        | Except.error e => Except.error e
        | Except.ok acc₁ =>
          match updatePressure new_data fld ts acc₁ with
          | Except.error e => Except.error e
          | Except.ok acc₂ => updateKillSwitch new_data fld ts acc₂
      | none => Except.error ⟨"field", new_data⟩
    else
      Except.ok (s, [])
  | some (Val.str _) => Except.error ⟨"timestamp", new_data⟩
  | none => Except.error ⟨"timestamp", new_data⟩

/-- Function `algorithm_done` (source lines 101-103): prints a line and hands the four
accumulated lists to the plot, leaving the state untouched. -/
def algorithm_done (start_s end_s : ℚ) (s : AlgState) : AlgState × List Output :=
  (s, [Output.doneLine,
       Output.plotCall start_s end_s s.pressure_time s.pressure_log
         s.kill_sw_time s.kill_sw_log])

/-- The event loop of `run_simulation` (source lines 151-152): feed each record
to `algorithm_update`, stopping at the first failure. -/
def run_events (start_s end_s : ℚ) (s : AlgState) :
    List Record → Except MalformedEventError (AlgState × List Output)
  | [] => Except.ok (s, [])
  | d :: rest =>
    match algorithm_update start_s end_s s d with
    | Except.error e => Except.error e
    | Except.ok (s₁, o₁) =>
      match run_events start_s end_s s₁ rest with
      | Except.error e => Except.error e
      | Except.ok (s₂, o₂) => Except.ok (s₂, o₁ ++ o₂)

/-- Function `run_simulation` (source lines 149-153): init, the event loop, done. -/
def run_simulation (start_s end_s : ℚ) (data : List Record) :
    Except MalformedEventError (AlgState × List Output) :=
  match run_events start_s end_s initState data with
  | Except.error e => Except.error e
  | Except.ok (s, outs) =>
    Except.ok ((algorithm_done start_s end_s s).1,
               algorithm_init ++ outs ++ (algorithm_done start_s end_s s).2)

/-- One decoded dataset from the ULog file, already zipped row-wise. `load_data`
zips equal-length columnar arrays of each handled dataset (timestamps are the
source's non-negative integer microsecond counts, payload columns are decoded
floats); datasets with any other name contribute nothing. -/
inductive DataSet where
  | sensorCombined (rows : List (Nat × ℚ × ℚ × ℚ × ℚ × ℚ × ℚ))
  | vehicleAirData (rows : List (Nat × ℚ))
  | manualControlSetpoint (rows : List (Nat × ℚ))
  | other (name : String)

/-- The dict built for one `sensor_combined` row (source line 127): timestamp
in seconds first, then the field tag, then the six coerced IMU values. -/
def sensorRecord : Nat × ℚ × ℚ × ℚ × ℚ × ℚ × ℚ → Record
  | (ts, gx, gy, gz, ax, ay, az) =>
    [("timestamp", Val.num ((ts : ℚ) / 1000000)),
     ("field", Val.str "sensor_combined"),
     ("gyro_rad_x", Val.num gx), ("gyro_rad_y", Val.num gy),
     ("gyro_rad_z", Val.num gz),
     ("acc_x", Val.num ax), ("acc_y", Val.num ay), ("acc_z", Val.num az)]

/-- The dict built for one `vehicle_air_data` row (source line 135). -/
def pressureRecord : Nat × ℚ → Record
  | (ts, p) =>
    [("timestamp", Val.num ((ts : ℚ) / 1000000)),
     ("field", Val.str "vehicle_air_data"),
     ("baro_pressure_pa", Val.num p)]

/-- The dict built for one `manual_control_setpoint` row (source line 143). -/
def killSwitchRecord : Nat × ℚ → Record
  | (ts, a) =>
    [("timestamp", Val.num ((ts : ℚ) / 1000000)),
     ("field", Val.str "manual_control_setpoint"),
     ("aux1", Val.num a)]

/-- The records appended for one dataset of `ulog.data_list`, in row order
(the three handled branches of `load_data`, source lines 116-143). -/
def normalizeDataSet : DataSet → List Record
  | DataSet.sensorCombined rows => rows.map sensorRecord
  | DataSet.vehicleAirData rows => rows.map pressureRecord
  | DataSet.manualControlSetpoint rows => rows.map killSwitchRecord
  | DataSet.other _ => []

/-- The list `d` accumulated by `load_data` before the final sort: the
per-dataset records concatenated in `data_list` order. -/
def premergeData : List DataSet → List Record
  | [] => []
  | ds :: rest => normalizeDataSet ds ++ premergeData rest

/-- Python `list(x.values())[0]`: the first value of the insertion-ordered
dict. (An empty dict would be an `IndexError`; `load_data` never builds one,
so the default is never exercised.) -/
def firstValue (r : Record) : Val :=
  match r with
  | [] => Val.str ""
  | kv :: _ => kv.2

/-- The comparison performed by `sorted(d, key=lambda x: list(x.values())[0])`
(source line 146): keys compared as numbers. Every key this program builds is
a numeric timestamp, so `Val.toNum` is only ever applied to `Val.num`. -/
def keyLE (x y : Record) : Bool :=
  decide (Val.toNum (firstValue x) ≤ Val.toNum (firstValue y))

/-- Function `load_data` (source lines 107-147): normalize every dataset, then stably
sort the combined list by the first dict value. Python `sorted` is a stable
sort, modelled by `List.mergeSort`. -/
def load_data (ulog : List DataSet) : List Record :=
  (premergeData ulog).mergeSort keyLE

/-- The timestamp field of a record, read as a number. -/
def timestampOf (r : Record) : ℚ :=
  Val.toNum ((dictGet r "timestamp").getD (Val.num 0))

/-- Modelled from the spec (refinement comparison only): the ordering "keyed
solely on the timestamp field" that the spec says the sort implements. -/
def specTimestampLE (x y : Record) : Bool :=
  decide (timestampOf x ≤ timestampOf y)

/-- Modelled from the spec (refinement comparison only): `load_data` with the
merge keyed solely on the timestamp field. -/
def load_data_spec_order (ulog : List DataSet) : List Record :=
  (premergeData ulog).mergeSort specTimestampLE

/-- The `(timestamp, pressure)` pair a well-formed in-stream PRESSURE event
carries, when the event has the pressure kind tag and both numeric fields. -/
def pressurePair? (e : Record) : Option (ℚ × ℚ) :=
  if dictGet e "field" = some (Val.str "vehicle_air_data") then
    match dictGet e "timestamp", dictGet e "baro_pressure_pa" with
    | some (Val.num ts), some (Val.num p) => some (ts, p)
    | _, _ => none
  else none

/-- The `(timestamp, aux1)` pair a well-formed KILL_SWITCH event carries. -/
def killPair? (e : Record) : Option (ℚ × ℚ) :=
  if dictGet e "field" = some (Val.str "manual_control_setpoint") then
    match dictGet e "timestamp", dictGet e "aux1" with
    | some (Val.num ts), some (Val.num a) => some (ts, a)
    | _, _ => none
  else none

/-- The event is a well-formed PRESSURE or KILL_SWITCH event whose timestamp
lies strictly inside the window. -/
def inWindowPK (start_s end_s : ℚ) (e : Record) : Bool :=
  match pressurePair? e with
  | some (ts, _) => decide (start_s < ts ∧ ts < end_s)
  | none =>
    match killPair? e with
    | some (ts, _) => decide (start_s < ts ∧ ts < end_s)
    | none => false

/-- The event's `timestamp` entry holds a number. -/
def hasNumTimestamp (e : Record) : Bool :=
  match dictGet e "timestamp" with
  | some (Val.num _) => true
  | _ => false

/-- Every record `load_data` builds: a non-negative numeric timestamp sits in
the first dict slot and is the value of the `timestamp` key. -/
def GoodRec (r : Record) : Prop :=
  ∃ q : ℚ, 0 ≤ q ∧ r.head? = some ("timestamp", Val.num q) ∧
    dictGet r "timestamp" = some (Val.num q)

/-- The paired-history invariant: each timestamp list has exactly the length
of its value list. -/
def Lockstep (s : AlgState) : Prop :=
  s.pressure_time.length = s.pressure_log.length ∧
  s.kill_sw_time.length = s.kill_sw_log.length

/-- The source integer timestamps of a dataset, in row order. -/
def srcTimestamps : DataSet → List Nat
  | DataSet.sensorCombined rows => rows.map (fun row => row.1)
  | DataSet.vehicleAirData rows => rows.map Prod.fst
  | DataSet.manualControlSetpoint rows => rows.map Prod.fst
  | DataSet.other _ => []

/-- A concrete PRESSURE event at t = 100.1 s (strictly inside a (100, 900)
window). -/
def exPressureInside : Record :=
  [("timestamp", Val.num (1001 / 10)), ("field", Val.str "vehicle_air_data"),
   ("baro_pressure_pa", Val.num 1013)]

/-- A concrete KILL_SWITCH event at exactly t = 100 s (on the lower bound of a
(100, 900) window). -/
def exKillBoundary : Record :=
  [("timestamp", Val.num 100), ("field", Val.str "manual_control_setpoint"),
   ("aux1", Val.num 1)]

/-- A concrete in-window PRESSURE event whose `baro_pressure_pa` entry is
absent. -/
def exMalformedPressure : Record :=
  [("timestamp", Val.num 150), ("field", Val.str "vehicle_air_data")]

/-- A concrete in-window PRESSURE event at t = 150 s. -/
def exPressure150 : Record :=
  [("timestamp", Val.num 150), ("field", Val.str "vehicle_air_data"),
   ("baro_pressure_pa", Val.num 1013)]

/-- The three pressure readings of the round-trip example: t = 150, 160, 170 s
with values 1013.2 (= 5066/5), 1013.0 and 1012.8 (= 5064/5). -/
def exRoundTripEvents : List Record :=
  [[("timestamp", Val.num 150), ("field", Val.str "vehicle_air_data"),
    ("baro_pressure_pa", Val.num (5066 / 5))],
   [("timestamp", Val.num 160), ("field", Val.str "vehicle_air_data"),
    ("baro_pressure_pa", Val.num 1013)],
   [("timestamp", Val.num 170), ("field", Val.str "vehicle_air_data"),
    ("baro_pressure_pa", Val.num (5064 / 5))]]

/-- A concrete two-dataset log used to instantiate the sort-key refinement. -/
def exUlog : List DataSet :=
  [DataSet.vehicleAirData [(150000000, 1013)],
   DataSet.manualControlSetpoint [(50000000, 1)]]

lemma sensorRecord_good (row : Nat × ℚ × ℚ × ℚ × ℚ × ℚ × ℚ) :
    GoodRec (sensorRecord row) := by
  obtain ⟨ts, gx, gy, gz, ax, ay, az⟩ := row
  exact ⟨(ts : ℚ) / 1000000, by positivity, rfl, rfl⟩

lemma pressureRecord_good (row : Nat × ℚ) : GoodRec (pressureRecord row) := by
  obtain ⟨ts, p⟩ := row
  exact ⟨(ts : ℚ) / 1000000, by positivity, rfl, rfl⟩

lemma killSwitchRecord_good (row : Nat × ℚ) : GoodRec (killSwitchRecord row) := by
  obtain ⟨ts, a⟩ := row
  exact ⟨(ts : ℚ) / 1000000, by positivity, rfl, rfl⟩

lemma normalize_good (ds : DataSet) : ∀ r ∈ normalizeDataSet ds, GoodRec r := by
  intro r hr
  cases ds with
  | sensorCombined rows =>
    obtain ⟨row, _, rfl⟩ := List.mem_map.mp hr
    exact sensorRecord_good row
  | vehicleAirData rows =>
    obtain ⟨row, _, rfl⟩ := List.mem_map.mp hr
    exact pressureRecord_good row
  | manualControlSetpoint rows =>
    obtain ⟨row, _, rfl⟩ := List.mem_map.mp hr
    exact killSwitchRecord_good row
  | other name => simp [normalizeDataSet] at hr

lemma premerge_good (ulog : List DataSet) :
    ∀ r ∈ premergeData ulog, GoodRec r := by
  induction ulog with
  | nil => intro r hr; simp [premergeData] at hr
  | cons ds rest ih =>
    intro r hr
    rcases List.mem_append.mp hr with h | h
    · exact normalize_good ds r h
    · exact ih r h

lemma GoodRec.firstValue_eq {r : Record} (h : GoodRec r) :
    firstValue r = Val.num (timestampOf r) ∧ 0 ≤ timestampOf r ∧
      dictGet r "timestamp" = some (Val.num (timestampOf r)) := by
  obtain ⟨q, hq, hhead, hget⟩ := h
  have hts : timestampOf r = q := by simp [timestampOf, hget, Val.toNum]
  have hfv : firstValue r = Val.num q := by
    cases r with
    | nil => simp at hhead
    | cons kv rest =>
      simp only [List.head?_cons, Option.some.injEq] at hhead
      simp [firstValue, hhead]
  exact ⟨by rw [hfv, hts], by rw [hts]; exact hq, by rw [hget, hts]⟩

lemma keyLE_eq_of_good {x y : Record} (hx : GoodRec x) (hy : GoodRec y) :
    keyLE x y = decide (timestampOf x ≤ timestampOf y) := by
  rw [keyLE, hx.firstValue_eq.1, hy.firstValue_eq.1]
  simp [Val.toNum]

lemma keyLE_trans (a b c : Record) : keyLE a b → keyLE b c → keyLE a c := by
  simp only [keyLE, decide_eq_true_eq]
  exact le_trans

lemma keyLE_total (a b : Record) : keyLE a b || keyLE b a := by
  simp only [keyLE, Bool.or_eq_true, decide_eq_true_eq]
  exact le_total _ _

lemma update_out_of_window {start_s end_s ts : ℚ} (s : AlgState) {e : Record}
    (hts : dictGet e "timestamp" = some (Val.num ts))
    (hw : ¬(start_s < ts ∧ ts < end_s)) :
    algorithm_update start_s end_s s e = Except.ok (s, []) := by
  unfold algorithm_update
  rw [hts]
  dsimp only
  rw [if_neg hw]

lemma update_pressure_eq {start_s end_s ts p : ℚ} (s : AlgState) {e : Record}
    (hts : dictGet e "timestamp" = some (Val.num ts))
    (hf : dictGet e "field" = some (Val.str "vehicle_air_data"))
    (hp : dictGet e "baro_pressure_pa" = some (Val.num p)) :
    algorithm_update start_s end_s s e =
      Except.ok (if start_s < ts ∧ ts < end_s then
        ({ s with pressure_time := s.pressure_time ++ [ts],
                  pressure_log := s.pressure_log ++ [p] },
         [Output.pressureLine ts p])
      else (s, [])) := by
  unfold algorithm_update
  rw [hts]
  dsimp only
  by_cases hw : start_s < ts ∧ ts < end_s
  · rw [if_pos hw, if_pos hw, hf]
    dsimp only
    unfold updateSensorCombined
    rw [if_neg (by decide)]
    dsimp only
    unfold updatePressure
    rw [if_pos rfl, hp]
    dsimp only
    unfold updateKillSwitch
    rw [if_neg (by decide)]
    simp
  · rw [if_neg hw, if_neg hw]

lemma update_kill_eq {start_s end_s ts a : ℚ} (s : AlgState) {e : Record}
    (hts : dictGet e "timestamp" = some (Val.num ts))
    (hf : dictGet e "field" = some (Val.str "manual_control_setpoint"))
    (ha : dictGet e "aux1" = some (Val.num a)) :
    algorithm_update start_s end_s s e =
      Except.ok (if start_s < ts ∧ ts < end_s then
        ({ s with kill_sw_time := s.kill_sw_time ++ [ts],
                  kill_sw_log := s.kill_sw_log ++ [a] },
         [Output.killSwLine ts a])
      else (s, [])) := by
  unfold algorithm_update
  rw [hts]
  dsimp only
  by_cases hw : start_s < ts ∧ ts < end_s
  · rw [if_pos hw, if_pos hw, hf]
    dsimp only
    unfold updateSensorCombined
    rw [if_neg (by decide)]
    dsimp only
    unfold updatePressure
    rw [if_neg (by decide)]
    dsimp only
    unfold updateKillSwitch
    rw [if_pos rfl, ha]
    simp
  · rw [if_neg hw, if_neg hw]

lemma update_pressure_missing {start_s end_s ts : ℚ} (s : AlgState) {e : Record}
    (hts : dictGet e "timestamp" = some (Val.num ts))
    (hf : dictGet e "field" = some (Val.str "vehicle_air_data"))
    (hp : dictGet e "baro_pressure_pa" = none)
    (hw : start_s < ts ∧ ts < end_s) :
    algorithm_update start_s end_s s e =
      Except.error ⟨"baro_pressure_pa", e⟩ := by
  unfold algorithm_update
  rw [hts]
  dsimp only
  rw [if_pos hw, hf]
  dsimp only
  unfold updateSensorCombined
  rw [if_neg (by decide)]
  dsimp only
  unfold updatePressure
  rw [if_pos rfl, hp]

lemma pressurePair?_eq_some {e : Record} {ts p : ℚ} :
    pressurePair? e = some (ts, p) ↔
      dictGet e "field" = some (Val.str "vehicle_air_data") ∧
      dictGet e "timestamp" = some (Val.num ts) ∧
      dictGet e "baro_pressure_pa" = some (Val.num p) := by
  constructor
  · intro h
    unfold pressurePair? at h
    split at h
    · split at h
      · rename_i hts hp
        simp only [Option.some.injEq, Prod.mk.injEq] at h
        exact ⟨by assumption, by rw [hts, h.1], by rw [hp, h.2]⟩
      · exact absurd h (by simp)
    · exact absurd h (by simp)
  · rintro ⟨hf, hts, hp⟩
    unfold pressurePair?
    rw [if_pos hf, hts, hp]

lemma killPair?_eq_some {e : Record} {ts a : ℚ} :
    killPair? e = some (ts, a) ↔
      dictGet e "field" = some (Val.str "manual_control_setpoint") ∧
      dictGet e "timestamp" = some (Val.num ts) ∧
      dictGet e "aux1" = some (Val.num a) := by
  constructor
  · intro h
    unfold killPair? at h
    split at h
    · split at h
      · rename_i hts ha
        simp only [Option.some.injEq, Prod.mk.injEq] at h
        exact ⟨by assumption, by rw [hts, h.1], by rw [ha, h.2]⟩
      · exact absurd h (by simp)
    · exact absurd h (by simp)
  · rintro ⟨hf, hts, ha⟩
    unfold killPair?
    rw [if_pos hf, hts, ha]

lemma killPair?_none_of_pressure {e : Record}
    (hf : dictGet e "field" = some (Val.str "vehicle_air_data")) :
    killPair? e = none := by
  unfold killPair?
  rw [if_neg (by rw [hf]; decide)]

lemma pressurePair?_none_of_kill {e : Record}
    (hf : dictGet e "field" = some (Val.str "manual_control_setpoint")) :
    pressurePair? e = none := by
  unfold pressurePair?
  rw [if_neg (by rw [hf]; decide)]

lemma run_events_pk (start_s end_s : ℚ) :
    ∀ (evs : List Record) (s : AlgState),
      (∀ e ∈ evs, inWindowPK start_s end_s e = true) →
      ∃ outs, run_events start_s end_s s evs =
        Except.ok
          ({ pressure_time :=
               s.pressure_time ++ (evs.filterMap pressurePair?).map Prod.fst,
             pressure_log :=
               s.pressure_log ++ (evs.filterMap pressurePair?).map Prod.snd,
             kill_sw_time :=
               s.kill_sw_time ++ (evs.filterMap killPair?).map Prod.fst,
             kill_sw_log :=
               s.kill_sw_log ++ (evs.filterMap killPair?).map Prod.snd },
           outs) := by
  intro evs
  induction evs with
  | nil =>
    intro s h
    exact ⟨[], by simp [run_events]⟩
  | cons e rest ih =>
    intro s h
    have he := h e (List.mem_cons_self e rest)
    have hrest : ∀ x ∈ rest, inWindowPK start_s end_s x = true :=
      fun x hx => h x (List.mem_cons_of_mem e hx)
    unfold inWindowPK at he
    cases hpp : pressurePair? e with
    | some pr =>
      obtain ⟨ts, p⟩ := pr
      rw [hpp] at he
      dsimp only at he
      have hw : start_s < ts ∧ ts < end_s := of_decide_eq_true he
      obtain ⟨hf, hts, hp⟩ := pressurePair?_eq_some.mp hpp
      have hkp : killPair? e = none := killPair?_none_of_pressure hf
      obtain ⟨outs, hrun⟩ :=
        ih { s with pressure_time := s.pressure_time ++ [ts],
                    pressure_log := s.pressure_log ++ [p] } hrest
      refine ⟨[Output.pressureLine ts p] ++ outs, ?_⟩
      unfold run_events
      rw [update_pressure_eq s hts hf hp, if_pos hw]
      dsimp only
      rw [hrun]
      dsimp only
      simp [hpp, hkp]
    | none =>
      rw [hpp] at he
      dsimp only at he
      cases hkp : killPair? e with
      | some kr =>
        obtain ⟨ts, a⟩ := kr
        rw [hkp] at he
        dsimp only at he
        have hw : start_s < ts ∧ ts < end_s := of_decide_eq_true he
        obtain ⟨hf, hts, ha⟩ := killPair?_eq_some.mp hkp
        obtain ⟨outs, hrun⟩ :=
          ih { s with kill_sw_time := s.kill_sw_time ++ [ts],
                      kill_sw_log := s.kill_sw_log ++ [a] } hrest
        refine ⟨[Output.killSwLine ts a] ++ outs, ?_⟩
        unfold run_events
        rw [update_kill_eq s hts hf ha, if_pos hw]
        dsimp only
        rw [hrun]
        dsimp only
        simp [hpp, hkp]
      | none =>
        rw [hkp] at he
        simp at he

lemma run_events_empty_window {start_s end_s : ℚ} (hcfg : end_s ≤ start_s) :
    ∀ (evs : List Record) (s : AlgState),
      (∀ e ∈ evs, hasNumTimestamp e = true) →
      run_events start_s end_s s evs = Except.ok (s, []) := by
  intro evs
  induction evs with
  | nil => intro s _; rfl
  | cons e rest ih =>
    intro s h
    have he := h e (List.mem_cons_self e rest)
    unfold hasNumTimestamp at he
    cases hge : dictGet e "timestamp" with
    | none => rw [hge] at he; simp at he
    | some v =>
      cases v with
      | str v => rw [hge] at he; simp at he
      | num ts =>
        have hw : ¬(start_s < ts ∧ ts < end_s) := by
          rintro ⟨h1, h2⟩
          linarith
        unfold run_events
        rw [update_out_of_window s hge hw]
        dsimp only
        rw [ih s (fun x hx => h x (List.mem_cons_of_mem e hx))]
        rfl

lemma updateSensorCombined_fst {e : Record} {fld : Val} {ts : ℚ}
    {acc acc' : AlgState × List Output}
    (h : updateSensorCombined e fld ts acc = Except.ok acc') :
    acc'.1 = acc.1 := by
  unfold updateSensorCombined at h
  split at h
  · repeat' split at h
    all_goals first
      | exact Except.noConfusion h
      | (cases h; rfl)
  · cases h; rfl

lemma updatePressure_lockstep {e : Record} {fld : Val} {ts : ℚ}
    {acc acc' : AlgState × List Output}
    (h : updatePressure e fld ts acc = Except.ok acc')
    (hl : Lockstep acc.1) : Lockstep acc'.1 := by
  unfold updatePressure at h
  split at h
  · split at h
    all_goals first
      | exact Except.noConfusion h
      | (cases h
         exact ⟨by simp [hl.1], hl.2⟩)
  · cases h; exact hl

lemma updateKillSwitch_lockstep {e : Record} {fld : Val} {ts : ℚ}
    {acc acc' : AlgState × List Output}
    (h : updateKillSwitch e fld ts acc = Except.ok acc')
    (hl : Lockstep acc.1) : Lockstep acc'.1 := by
  unfold updateKillSwitch at h
  split at h
  · split at h
    all_goals first
      | exact Except.noConfusion h
      | (cases h
         exact ⟨hl.1, by simp [hl.2]⟩)
  · cases h; exact hl

lemma update_lockstep {start_s end_s : ℚ} {s : AlgState} {e : Record}
    {s₁ : AlgState} {outs : List Output}
    (h : algorithm_update start_s end_s s e = Except.ok (s₁, outs))
    (hl : Lockstep s) : Lockstep s₁ := by
  unfold algorithm_update at h
  cases hts : dictGet e "timestamp" with
  | none => rw [hts] at h; exact Except.noConfusion h
  | some v =>
    cases v with
    | str v => rw [hts] at h; exact Except.noConfusion h
    | num ts =>
      rw [hts] at h
      dsimp only at h
      by_cases hw : start_s < ts ∧ ts < end_s
      · rw [if_pos hw] at h
        cases hfd : dictGet e "field" with
        | none => rw [hfd] at h; exact Except.noConfusion h
        | some fld =>
          rw [hfd] at h
          dsimp only at h
          cases hsc : updateSensorCombined e fld ts (s, []) with
          | error er => rw [hsc] at h; exact Except.noConfusion h
          | ok acc₁ =>
            rw [hsc] at h
            dsimp only at h
            cases hpr : updatePressure e fld ts acc₁ with
            | error er => rw [hpr] at h; exact Except.noConfusion h
            | ok acc₂ =>
              rw [hpr] at h
              dsimp only at h
              have l₁ : Lockstep acc₁.1 := by
                rw [updateSensorCombined_fst hsc]; exact hl
              have l₂ : Lockstep acc₂.1 := updatePressure_lockstep hpr l₁
              exact updateKillSwitch_lockstep h l₂
      · rw [if_neg hw] at h
        cases h
        exact hl

lemma pk_counts (start_s end_s : ℚ) : ∀ evs : List Record,
    (∀ e ∈ evs, inWindowPK start_s end_s e = true) →
    (evs.filterMap pressurePair?).length + (evs.filterMap killPair?).length =
      evs.length := by
  intro evs
  induction evs with
  | nil => intro _; rfl
  | cons e rest ih =>
    intro h
    have he := h e (List.mem_cons_self e rest)
    have hrest := ih (fun x hx => h x (List.mem_cons_of_mem e hx))
    unfold inWindowPK at he
    cases hpp : pressurePair? e with
    | some pr =>
      have hkp : killPair? e = none :=
        killPair?_none_of_pressure (pressurePair?_eq_some.mp (by rw [hpp])).1
      simp only [List.filterMap_cons, hpp, hkp, List.length_cons]
      omega
    | none =>
      rw [hpp] at he
      dsimp only at he
      cases hkp : killPair? e with
      | some kr =>
        simp only [List.filterMap_cons, hpp, hkp, List.length_cons]
        omega
      | none => rw [hkp] at he; simp at he

/-- C1: window filtering is strict at both bounds. For a well-formed PRESSURE
(`vehicle_air_data`) or KILL_SWITCH (`manual_control_setpoint`) event,
`algorithm_update` succeeds, and the event's `(timestamp, value)` pair is
appended to the history of its kind iff `start_seconds < timestamp <
end_seconds`; outside the window the state is unchanged and nothing is
emitted, and the other kind's history is never touched. -/
theorem window_filtering_strict :
    (∀ start_s end_s ts p : ℚ, ∀ s : AlgState, ∀ e : Record,
      dictGet e "timestamp" = some (Val.num ts) →
      dictGet e "field" = some (Val.str "vehicle_air_data") →
      dictGet e "baro_pressure_pa" = some (Val.num p) →
      ∃ s₁ outs, algorithm_update start_s end_s s e = Except.ok (s₁, outs) ∧
        ((s₁.pressure_time = s.pressure_time ++ [ts] ∧
          s₁.pressure_log = s.pressure_log ++ [p]) ↔
            (start_s < ts ∧ ts < end_s)) ∧
        (¬(start_s < ts ∧ ts < end_s) → s₁ = s ∧ outs = []) ∧
        s₁.kill_sw_time = s.kill_sw_time ∧ s₁.kill_sw_log = s.kill_sw_log) ∧
    (∀ start_s end_s ts a : ℚ, ∀ s : AlgState, ∀ e : Record,
      dictGet e "timestamp" = some (Val.num ts) →
      dictGet e "field" = some (Val.str "manual_control_setpoint") →
      dictGet e "aux1" = some (Val.num a) →
      ∃ s₁ outs, algorithm_update start_s end_s s e = Except.ok (s₁, outs) ∧
        ((s₁.kill_sw_time = s.kill_sw_time ++ [ts] ∧
          s₁.kill_sw_log = s.kill_sw_log ++ [a]) ↔
            (start_s < ts ∧ ts < end_s)) ∧
        (¬(start_s < ts ∧ ts < end_s) → s₁ = s ∧ outs = []) ∧
        s₁.pressure_time = s.pressure_time ∧
        s₁.pressure_log = s.pressure_log) := by
  constructor
  · intro start_s end_s ts p s e hts hf hp
    by_cases hw : start_s < ts ∧ ts < end_s
    · refine ⟨{ s with pressure_time := s.pressure_time ++ [ts],
                       pressure_log := s.pressure_log ++ [p] },
              [Output.pressureLine ts p],
              by rw [update_pressure_eq s hts hf hp, if_pos hw],
              ⟨fun _ => hw, fun _ => ⟨rfl, rfl⟩⟩,
              fun hn => absurd hw hn, rfl, rfl⟩
    · refine ⟨s, [],
              by rw [update_pressure_eq s hts hf hp, if_neg hw],
              ?_, fun _ => ⟨rfl, rfl⟩, rfl, rfl⟩
      constructor
      · rintro ⟨h1, _⟩
        exact absurd h1 (by simp)
      · intro hww
        exact absurd hww hw
  · intro start_s end_s ts a s e hts hf ha
    by_cases hw : start_s < ts ∧ ts < end_s
    · refine ⟨{ s with kill_sw_time := s.kill_sw_time ++ [ts],
                       kill_sw_log := s.kill_sw_log ++ [a] },
              [Output.killSwLine ts a],
              by rw [update_kill_eq s hts hf ha, if_pos hw],
              ⟨fun _ => hw, fun _ => ⟨rfl, rfl⟩⟩,
              fun hn => absurd hw hn, rfl, rfl⟩
    · refine ⟨s, [],
              by rw [update_kill_eq s hts hf ha, if_neg hw],
              ?_, fun _ => ⟨rfl, rfl⟩, rfl, rfl⟩
      constructor
      · rintro ⟨h1, _⟩
        exact absurd h1 (by simp)
      · intro hww
        exact absurd hww hw

/-- C1 witness: with `start = 100`, `end = 900`, a PRESSURE event at
t = 100.1 s is appended while a KILL_SWITCH event at exactly t = 100 s is
excluded. -/
theorem window_filtering_strict_witness :
    (∃ s₁ outs,
      algorithm_update 100 900 initState exPressureInside =
        Except.ok (s₁, outs) ∧
      ((s₁.pressure_time = initState.pressure_time ++ [1001 / 10] ∧
        s₁.pressure_log = initState.pressure_log ++ [1013]) ↔
          ((100 : ℚ) < 1001 / 10 ∧ (1001 : ℚ) / 10 < 900)) ∧
      (¬((100 : ℚ) < 1001 / 10 ∧ (1001 : ℚ) / 10 < 900) →
        s₁ = initState ∧ outs = []) ∧
      s₁.kill_sw_time = initState.kill_sw_time ∧
      s₁.kill_sw_log = initState.kill_sw_log) ∧
    (∃ s₁ outs,
      algorithm_update 100 900 initState exKillBoundary =
        Except.ok (s₁, outs) ∧
      ((s₁.kill_sw_time = initState.kill_sw_time ++ [100] ∧
        s₁.kill_sw_log = initState.kill_sw_log ++ [1]) ↔
          ((100 : ℚ) < 100 ∧ (100 : ℚ) < 900)) ∧
      (¬((100 : ℚ) < 100 ∧ (100 : ℚ) < 900) → s₁ = initState ∧ outs = []) ∧
      s₁.pressure_time = initState.pressure_time ∧
      s₁.pressure_log = initState.pressure_log) :=
  ⟨window_filtering_strict.1 100 900 (1001 / 10) 1013 initState
      exPressureInside rfl rfl rfl,
   window_filtering_strict.2 100 900 100 1 initState exKillBoundary
      rfl rfl rfl⟩

/-- C2: an in-window PRESSURE event whose `baro_pressure_pa` entry is missing
makes `algorithm_update` fail with a `MalformedEventError` naming the missing
key and carrying the event (whose kind tag and timestamp identify it); no
successful result — hence no appended history entry and no emitted output —
exists for that event. -/
theorem malformed_pressure_rejected (start_s end_s ts : ℚ) (s : AlgState)
    (e : Record)
    (hts : dictGet e "timestamp" = some (Val.num ts))
    (hf : dictGet e "field" = some (Val.str "vehicle_air_data"))
    (hw₁ : start_s < ts) (hw₂ : ts < end_s)
    (hp : dictGet e "baro_pressure_pa" = none) :
    ∃ err : MalformedEventError,
      algorithm_update start_s end_s s e = Except.error err ∧
      err.missingKey = "baro_pressure_pa" ∧
      err.event = e ∧
      dictGet err.event "field" = some (Val.str "vehicle_air_data") ∧
      dictGet err.event "timestamp" = some (Val.num ts) ∧
      ∀ s₁ outs, algorithm_update start_s end_s s e ≠ Except.ok (s₁, outs) := by
  refine ⟨⟨"baro_pressure_pa", e⟩,
          update_pressure_missing s hts hf hp ⟨hw₁, hw₂⟩,
          rfl, rfl, hf, hts, ?_⟩
  intro s₁ outs hok
  rw [update_pressure_missing s hts hf hp ⟨hw₁, hw₂⟩] at hok
  exact Except.noConfusion hok

/-- C2 witness: the event at t = 150 s tagged `vehicle_air_data` but lacking
`baro_pressure_pa` is rejected under the window (100, 900). -/
theorem malformed_pressure_rejected_witness :
    ∃ err : MalformedEventError,
      algorithm_update 100 900 initState exMalformedPressure =
        Except.error err ∧
      err.missingKey = "baro_pressure_pa" ∧
      err.event = exMalformedPressure ∧
      dictGet err.event "field" = some (Val.str "vehicle_air_data") ∧
      dictGet err.event "timestamp" = some (Val.num 150) ∧
      ∀ s₁ outs,
        algorithm_update 100 900 initState exMalformedPressure ≠
          Except.ok (s₁, outs) :=
  malformed_pressure_rejected 100 900 150 initState exMalformedPressure
    rfl rfl (by norm_num) (by norm_num) rfl

/-- C3: `algorithm_done` never mutates the engine state, so calling it a
second time after it has already run is a no-op producing exactly the same
Sink-visible output (and the same state) as the first call. -/
theorem done_idempotent (start_s end_s : ℚ) (s : AlgState) :
    (algorithm_done start_s end_s (algorithm_done start_s end_s s).1).2 =
      (algorithm_done start_s end_s s).2 ∧
    (algorithm_done start_s end_s (algorithm_done start_s end_s s).1).1 =
      (algorithm_done start_s end_s s).1 :=
  ⟨rfl, rfl⟩

/-- C9: the paired history lists stay in lockstep: the invariant
`len(pressure_time) = len(pressure_log) ∧ len(kill_sw_time) = len(kill_sw_log)`
holds of the initial state and is preserved by every successful
`algorithm_update` (on any event) and by `algorithm_done`. -/
theorem histories_lockstep :
    Lockstep initState ∧
    (∀ start_s end_s : ℚ, ∀ s : AlgState, ∀ e : Record, ∀ s₁ : AlgState,
      ∀ outs : List Output, Lockstep s →
      algorithm_update start_s end_s s e = Except.ok (s₁, outs) →
      Lockstep s₁) ∧
    (∀ start_s end_s : ℚ, ∀ s : AlgState, Lockstep s →
      Lockstep (algorithm_done start_s end_s s).1) :=
  ⟨⟨rfl, rfl⟩,
   fun _ _ _ _ _ _ hl h => update_lockstep h hl,
   fun _ _ _ hl => hl⟩

/-- C9 witness: the invariant transported through a concrete update of the
initial state by an in-window pressure event. -/
theorem histories_lockstep_witness :
    Lockstep { pressure_time := [150], pressure_log := [1013],
               kill_sw_time := [], kill_sw_log := [] } :=
  histories_lockstep.2.1 100 900 initState exPressure150
    { pressure_time := [150], pressure_log := [1013],
      kill_sw_time := [], kill_sw_log := [] }
    [Output.pressureLine 150 1013] histories_lockstep.1 rfl

/-- C6: round-trip without loss or duplication. Feeding a stream of
well-formed in-window PRESSURE and KILL_SWITCH events from the initial state
succeeds, and the final histories are exactly the fed `(timestamp, value)`
pairs of each kind, in feed order; in particular the pressure history has
exactly one entry per PRESSURE event and the kill-switch history one entry per
KILL_SWITCH event, and the two counts sum to the number of events fed. -/
theorem round_trip_histories (start_s end_s : ℚ) (evs : List Record)
    (h : ∀ e ∈ evs, inWindowPK start_s end_s e = true) :
    (∃ outs, run_events start_s end_s initState evs =
      Except.ok
        ({ pressure_time := (evs.filterMap pressurePair?).map Prod.fst,
           pressure_log := (evs.filterMap pressurePair?).map Prod.snd,
           kill_sw_time := (evs.filterMap killPair?).map Prod.fst,
           kill_sw_log := (evs.filterMap killPair?).map Prod.snd },
         outs)) ∧
    (evs.filterMap pressurePair?).length + (evs.filterMap killPair?).length =
      evs.length := by
  refine ⟨?_, pk_counts start_s end_s evs h⟩
  have hrun := run_events_pk start_s end_s evs initState h
  simpa [initState] using hrun

/-- C6 witness: the three pressure readings at t = 150, 160, 170 s with values
1013.2, 1013.0, 1012.8 give exactly that three-entry pressure history and an
empty kill-switch history. -/
theorem round_trip_histories_witness :
    (∃ outs, run_events 100 900 initState exRoundTripEvents =
      Except.ok
        ({ pressure_time :=
             (exRoundTripEvents.filterMap pressurePair?).map Prod.fst,
           pressure_log :=
             (exRoundTripEvents.filterMap pressurePair?).map Prod.snd,
           kill_sw_time :=
             (exRoundTripEvents.filterMap killPair?).map Prod.fst,
           kill_sw_log :=
             (exRoundTripEvents.filterMap killPair?).map Prod.snd },
         outs)) ∧
    (exRoundTripEvents.filterMap pressurePair?).length +
        (exRoundTripEvents.filterMap killPair?).length =
      exRoundTripEvents.length ∧
    (exRoundTripEvents.filterMap pressurePair?).map Prod.fst =
      [150, 160, 170] ∧
    (exRoundTripEvents.filterMap pressurePair?).map Prod.snd =
      [5066 / 5, 1013, 5064 / 5] := by
  have h := round_trip_histories 100 900 exRoundTripEvents (by decide)
  exact ⟨h.1, h.2, by rfl, by rfl⟩

/-- C7 counterexample: with the invalid configuration `start_seconds = 900 ≥
100 = end_seconds` the program does not fail and does not abort before the
run: the whole pipeline (init, one event, done) completes successfully — the
source performs no configuration validation at all. -/
theorem config_not_validated_cex :
    run_simulation 900 100
      [[("timestamp", Val.num 500), ("field", Val.str "vehicle_air_data"),
        ("baro_pressure_pa", Val.num 1013)]] =
      Except.ok (initState,
        [Output.initLine, Output.doneLine,
         Output.plotCall 900 100 [] [] [] []]) := rfl

/-- C7 (amended): the source never validates its configuration; when
`start_seconds ≥ end_seconds` the run is not aborted — every event with a
numeric timestamp falls outside the (empty) window, and the simulation
completes normally with untouched (empty) histories. -/
theorem invalid_window_runs_to_completion (start_s end_s : ℚ)
    (hcfg : end_s ≤ start_s) (evs : List Record)
    (h : ∀ e ∈ evs, hasNumTimestamp e = true) :
    run_simulation start_s end_s evs =
      Except.ok (initState,
        [Output.initLine, Output.doneLine,
         Output.plotCall start_s end_s [] [] [] []]) := by
  unfold run_simulation
  rw [run_events_empty_window hcfg evs initState h]
  rfl

/-- C7 witness: the degenerate window (900, 100) silently ignores two events
and completes. -/
theorem invalid_window_runs_to_completion_witness :
    run_simulation 900 100 [exPressure150, exKillBoundary] =
      Except.ok (initState,
        [Output.initLine, Output.doneLine,
         Output.plotCall 900 100 [] [] [] []]) :=
  invalid_window_runs_to_completion 900 100 (by norm_num)
    [exPressure150, exKillBoundary] (by decide)

/-- C4: for every input log, the merged stream returned by `load_data` is
non-decreasing in timestamp: every record's timestamp is at most its
successor's. -/
theorem merged_stream_sorted (ulog : List DataSet) :
    List.Chain' (fun a b => timestampOf a ≤ timestampOf b) (load_data ulog) := by
  have hp : (load_data ulog).Pairwise (fun a b => keyLE a b = true) :=
    List.sorted_mergeSort keyLE_trans keyLE_total (premergeData ulog)
  have hp2 : (load_data ulog).Pairwise
      (fun a b => timestampOf a ≤ timestampOf b) := by
    refine hp.imp_of_mem ?_
    intro a b ha hb hab
    have ga : GoodRec a := premerge_good ulog a (List.mem_mergeSort.mp ha)
    have gb : GoodRec b := premerge_good ulog b (List.mem_mergeSort.mp hb)
    rw [keyLE_eq_of_good ga gb] at hab
    exact of_decide_eq_true hab
  exact hp2.chain'

/-- C5: the merge is stable for equal timestamps: for every timestamp value
`t`, the subsequence of merged records whose timestamp equals `t` is exactly
the subsequence of the pre-merge input with that timestamp, in the same
relative order. -/
theorem merge_stable_on_ties (ulog : List DataSet) (t : ℚ) :
    (load_data ulog).filter (fun r => decide (timestampOf r = t)) =
      (premergeData ulog).filter (fun r => decide (timestampOf r = t)) := by
  set p : Record → Bool := fun r => decide (timestampOf r = t) with hpdef
  have hmem : ∀ r ∈ (premergeData ulog).filter p,
      GoodRec r ∧ timestampOf r = t := by
    intro r hr
    refine ⟨premerge_good ulog r (List.mem_of_mem_filter hr), ?_⟩
    have h2 := List.of_mem_filter hr
    rw [hpdef] at h2
    exact of_decide_eq_true h2
  have hpair : ((premergeData ulog).filter p).Pairwise
      (fun a b => keyLE a b = true) := by
    apply List.pairwise_of_forall_mem_list
    intro a ha b hb
    obtain ⟨ga, ta⟩ := hmem a ha
    obtain ⟨gb, tb⟩ := hmem b hb
    rw [keyLE_eq_of_good ga gb, ta, tb]
    simp
  have hsub : List.Sublist ((premergeData ulog).filter p) (load_data ulog) :=
    List.sublist_mergeSort keyLE_trans keyLE_total hpair
      (List.filter_sublist (premergeData ulog))
  have hsub2 : List.Sublist ((premergeData ulog).filter p)
      ((load_data ulog).filter p) := by
    have h3 := hsub.filter p
    rwa [List.filter_filter, (by funext a; simp : (fun a => p a && p a) = p)]
      at h3
  have hlen : ((load_data ulog).filter p).length =
      ((premergeData ulog).filter p).length :=
    (List.Perm.filter p (List.mergeSort_perm (premergeData ulog) keyLE)).length_eq
  exact (hsub2.eq_of_length hlen.symm).symm

/-- C8: the normalizer converts each source integer microsecond timestamp to
seconds by exact division by 1e6 (hence non-negative), preserves the row order
of each batch (the timestamps of its output are exactly the converted source
timestamps, in order), and every payload entry other than the `field` tag is a
floating-point number. -/
theorem normalizer_converts_and_preserves_order (ds : DataSet) :
    (normalizeDataSet ds).map timestampOf =
      (srcTimestamps ds).map (fun n : ℕ => (n : ℚ) / 1000000) ∧
    ∀ r ∈ normalizeDataSet ds, 0 ≤ timestampOf r ∧
      ∀ kv ∈ r, kv.1 = "field" ∨ ∃ q : ℚ, kv.2 = Val.num q := by
  constructor
  · cases ds with
    | sensorCombined rows =>
      simp only [normalizeDataSet, srcTimestamps, List.map_map]
      apply List.map_congr_left
      rintro ⟨ts, gx, gy, gz, ax, ay, az⟩ _
      rfl
    | vehicleAirData rows =>
      simp only [normalizeDataSet, srcTimestamps, List.map_map]
      apply List.map_congr_left
      rintro ⟨ts, p⟩ _
      rfl
    | manualControlSetpoint rows =>
      simp only [normalizeDataSet, srcTimestamps, List.map_map]
      apply List.map_congr_left
      rintro ⟨ts, a⟩ _
      rfl
    | other name => rfl
  · intro r hr
    refine ⟨(normalize_good ds r hr).firstValue_eq.2.1, ?_⟩
    cases ds with
    | sensorCombined rows =>
      obtain ⟨row, _, rfl⟩ := List.mem_map.mp hr
      obtain ⟨ts, gx, gy, gz, ax, ay, az⟩ := row
      intro kv hkv
      simp only [sensorRecord, List.mem_cons, List.not_mem_nil, or_false]
        at hkv
      rcases hkv with rfl | rfl | rfl | rfl | rfl | rfl | rfl | rfl
      · exact Or.inr ⟨_, rfl⟩
      · exact Or.inl rfl
      · exact Or.inr ⟨_, rfl⟩
      · exact Or.inr ⟨_, rfl⟩
      · exact Or.inr ⟨_, rfl⟩
      · exact Or.inr ⟨_, rfl⟩
      · exact Or.inr ⟨_, rfl⟩
      · exact Or.inr ⟨_, rfl⟩
    | vehicleAirData rows =>
      obtain ⟨row, _, rfl⟩ := List.mem_map.mp hr
      obtain ⟨ts, p⟩ := row
      intro kv hkv
      simp only [pressureRecord, List.mem_cons, List.not_mem_nil, or_false]
        at hkv
      rcases hkv with rfl | rfl | rfl
      · exact Or.inr ⟨_, rfl⟩
      · exact Or.inl rfl
      · exact Or.inr ⟨_, rfl⟩
    | manualControlSetpoint rows =>
      obtain ⟨row, _, rfl⟩ := List.mem_map.mp hr
      obtain ⟨ts, a⟩ := row
      intro kv hkv
      simp only [killSwitchRecord, List.mem_cons, List.not_mem_nil, or_false]
        at hkv
      rcases hkv with rfl | rfl | rfl
      · exact Or.inr ⟨_, rfl⟩
      · exact Or.inl rfl
      · exact Or.inr ⟨_, rfl⟩
    | other name => simp [normalizeDataSet] at hr

/-- C8 witness: one `vehicle_air_data` batch with a single row at
150000000 µs, normalized to the single record at 150 s with a numeric
payload. -/
theorem normalizer_witness :
    (normalizeDataSet (DataSet.vehicleAirData [(150000000, 1013)])).map
        timestampOf =
      (srcTimestamps (DataSet.vehicleAirData [(150000000, 1013)])).map
        (fun n : ℕ => (n : ℚ) / 1000000) ∧
    0 ≤ timestampOf (pressureRecord (150000000, 1013)) ∧
    ∀ kv ∈ pressureRecord (150000000, 1013),
      kv.1 = "field" ∨ ∃ q : ℚ, kv.2 = Val.num q :=
  ⟨(normalizer_converts_and_preserves_order
      (DataSet.vehicleAirData [(150000000, 1013)])).1,
   (normalizer_converts_and_preserves_order
      (DataSet.vehicleAirData [(150000000, 1013)])).2
     (pressureRecord (150000000, 1013)) (by simp [normalizeDataSet])⟩

/-- C10: in every record `load_data` builds, the first dict value is exactly
the value of the `timestamp` key (a number), so sorting keyed on the first
dict value coincides with sorting keyed solely on the timestamp field. -/
theorem sort_key_refines_timestamp (ulog : List DataSet) :
    (∀ r ∈ load_data ulog,
      firstValue r = Val.num (timestampOf r) ∧
      dictGet r "timestamp" = some (firstValue r)) ∧
    load_data ulog = load_data_spec_order ulog := by
  constructor
  · intro r hr
    have g := premerge_good ulog r (List.mem_mergeSort.mp hr)
    obtain ⟨h1, _, h3⟩ := g.firstValue_eq
    exact ⟨h1, by rw [h3, h1]⟩
  · unfold load_data load_data_spec_order
    have hcongr : ∀ a ∈ premergeData ulog, ∀ b ∈ premergeData ulog,
        keyLE a b = specTimestampLE (id a) (id b) := by
      intro a ha b hb
      have h := keyLE_eq_of_good (premerge_good ulog a ha)
        (premerge_good ulog b hb)
      simpa [specTimestampLE] using h
    have h := List.map_mergeSort (f := id) hcongr
    simpa using h

/-- C10 witness: the refinement instantiated on a concrete two-record log and
its pressure record. -/
theorem sort_key_refines_timestamp_witness :
    (firstValue (pressureRecord (150000000, 1013)) =
        Val.num (timestampOf (pressureRecord (150000000, 1013))) ∧
      dictGet (pressureRecord (150000000, 1013)) "timestamp" =
        some (firstValue (pressureRecord (150000000, 1013)))) ∧
    load_data exUlog = load_data_spec_order exUlog :=
  ⟨(sort_key_refines_timestamp exUlog).1 (pressureRecord (150000000, 1013))
      (by unfold load_data
          exact List.mem_mergeSort.mpr
            (by simp [exUlog, premergeData, normalizeDataSet])),
   (sort_key_refines_timestamp exUlog).2⟩

end UAVExercise
